import Mathlib

/-!
Verification of the fire-detection backend (src/backend/main.py).

The development shallowly embeds the request pipeline of `detect_fire`
(model-availability check, decode check, resize, inference, result
formatting) and the weight-provisioning part of `startup_event`
(download-if-absent with streaming chunks).  Floating-point values are
modelled as rationals; Python `round(x, n)` is modelled as
round-half-to-even at n decimal places, and Python `int(x)` as
truncation toward zero.  External library calls (cv2, ultralytics,
requests) are modelled by explicit, documented definitions; everything
else is translated directly from the source.
-/

namespace FireDetection

/-! ## Numeric helpers: Python round and int -/

/-- Round a rational to the nearest integer, ties to even.  This is the
rounding rule of Python `round` (banker rounding), deterministic and
locale-independent. -/
def rhe (x : ℚ) : ℤ :=
  if x - ⌊x⌋ < 1/2 then ⌊x⌋
  else if 1/2 < x - ⌊x⌋ then ⌊x⌋ + 1
  else if ⌊x⌋ % 2 = 0 then ⌊x⌋ else ⌊x⌋ + 1

/-- Python `round(x, k)`: round to k decimal places, ties to even. -/
def pyRound (x : ℚ) (k : ℕ) : ℚ := (rhe (x * 10 ^ k) : ℚ) / 10 ^ k

/-- Python `int(x)` on a float: truncation toward zero. -/
def pyTrunc (x : ℚ) : ℤ := if 0 ≤ x then ⌊x⌋ else ⌈x⌉

/-! ## Data model -/

/-- Decoded raster image: dimensions plus row-major pixel bytes
(BGR triples, as produced by `cv2.imdecode` with `IMREAD_COLOR`). -/
structure Img where
  width : ℕ
  height : ℕ
  data : List ℕ
  deriving DecidableEq, Repr

/-- Raw detection candidate produced by the detector: class index,
confidence, box corners in processed-image pixel space. -/
structure Candidate where
  cls : ℕ
  conf : ℚ
  x1 : ℚ
  y1 : ℚ
  x2 : ℚ
  y2 : ℚ
  deriving DecidableEq, Repr

/-- Loaded detector handle: the forward pass and the class-name table
(`result.names` in the source). -/
structure Model where
  run : Img → List Candidate
  names : ℕ → String

/-- One externally visible detection of the response payload
(`{"label": ..., "confidence": ..., "bbox": [...]}`). -/
structure Detection where
  label : String
  confidence : ℚ
  bbox : List ℚ
  deriving DecidableEq, Repr

/-- Success payload of `/detect/`.  Image sizes are kept as
width × height pairs (the source renders them as "WxH" strings);
`inference_time_ms` is wall-clock time and is not modelled. -/
structure Payload where
  detections : List Detection
  num_detections : ℕ
  image_size_original : ℕ × ℕ
  image_size_processed : ℕ × ℕ
  deriving DecidableEq, Repr

/-- An HTTPException raised by the endpoint: status code and detail. -/
structure HErr where
  status : ℕ
  detail : String
  deriving DecidableEq, Repr

/-! ## External calls of the request pipeline -/

/-- Modelled from the spec: `cv2.resize` is an external library call
(OpenCV is not part of this repository).  It produces an image of
exactly the requested dimensions and raises an error when a requested
dimension is not positive.  The interpolation kernel (INTER_LINEAR in
the source) is modelled as nearest-neighbour sampling; no claim depends
on resampled pixel values, only on dimensions and on the error case. -/
def cv2Resize (img : Img) (nw nh : ℤ) : Except String Img :=
  if 0 < nw ∧ 0 < nh then
    Except.ok
      { width := nw.toNat
        height := nh.toNat
        data :=
          (List.range nh.toNat).flatMap fun y =>
            (List.range nw.toNat).flatMap fun x =>
              let sy := y * img.height / nh.toNat
              let sx := x * img.width / nw.toNat
              [ img.data.getD ((sy * img.width + sx) * 3) 0,
                img.data.getD ((sy * img.width + sx) * 3 + 1) 0,
                img.data.getD ((sy * img.width + sx) * 3 + 2) 0 ] }
  else
    Except.error "OpenCV resize: invalid dsize"

set_option linter.unusedVariables false in
/-- Modelled from the spec: the detection engine is the external
ultralytics detector (not part of this repository).  Per the spec it
discards candidates below the confidence threshold, suppresses
overlapping duplicates, and returns at most `maxDet` candidates; it is
modelled as a threshold filter followed by truncation to `maxDet`
(overlap suppression only removes further candidates, which no claim
depends on).  The `iou` parameter is carried for signature fidelity but
is therefore unused in the model. -/
def yoloInfer (m : Model) (img : Img) (conf : ℚ) (iou : ℚ) (maxDet : ℕ) :
    List Candidate :=
  ((m.run img).filter fun c => conf ≤ c.conf).take maxDet

/-! ## The request pipeline (`detect_fire`, src/backend/main.py lines 112-210) -/

/-- Resize step of `detect_fire` (lines 141-153): when a side exceeds
640 the image is rescaled by `scale = 640 / max(width, height)` with the
new sides computed by `int(side * scale)`; otherwise the image passes
through unchanged. -/
def preprocess (img : Img) : Except String Img :=
  if 640 < img.width ∨ 640 < img.height then
    cv2Resize img
      (pyTrunc ((img.width : ℚ) * (640 / (max img.width img.height : ℕ))))
      (pyTrunc ((img.height : ℚ) * (640 / (max img.width img.height : ℕ))))
  else
    Except.ok img

/-- Formatting loop of `detect_fire` (lines 169-186): keep candidates
with raw confidence strictly above 0.25, label them through the
class-name table, round confidence to 4 and box corners to 2 decimal
places. -/
def formatDetections (m : Model) (cands : List Candidate) : List Detection :=
  cands.filterMap fun c =>
    if 1/4 < c.conf then
      some
        { label := m.names c.cls
          confidence := pyRound c.conf 4
          bbox := [pyRound c.x1 2, pyRound c.y1 2, pyRound c.x2 2, pyRound c.y2 2] }
    else none

/-- Result of one request: the HTTP response and whether inference was
actually invoked on the model. -/
structure DetectOutcome where
  response : Except HErr Payload
  inferenceRan : Bool
  deriving Repr

/-- The `/detect/` endpoint `detect_fire`.  `model?` is the process-wide
`model` global (`none` when startup failed); `decoded` is the result of
`cv2.imdecode` on the uploaded bytes (`none` when the bytes are not a
decodable image).  Exceptions inside the handler other than
HTTPException are converted to a 500 response (lines 201-210). -/
def detect_fire : Option Model → Option Img → DetectOutcome
  | none, _ =>
      { response := Except.error
          ⟨503, "Model not loaded. Please check server logs or restart."⟩
        inferenceRan := false }
  | some _, none =>
      { response := Except.error
          ⟨400, "Invalid image file. Supported: JPG, PNG, JPEG"⟩
        inferenceRan := false }
  | some m, some img =>
      match preprocess img with
      | Except.error e =>
          { response := Except.error ⟨500, "Detection failed: " ++ e⟩
            inferenceRan := false }
      | Except.ok img2 =>
          { response := Except.ok
              { detections := formatDetections m (yoloInfer m img2 (1/4) (45/100) 100)
                num_detections :=
                  (formatDetections m (yoloInfer m img2 (1/4) (45/100) 100)).length
                image_size_original := (img.width, img.height)
                image_size_processed := (img2.width, img2.height) }
            inferenceRan := true }

/-! ## Weight provisioning (`startup_event`, src/backend/main.py lines 55-72) -/

/-- Outcome of one streamed HTTP GET of the weights URL.  `failAfter =
some k` means the transfer raises a network exception after the first
`k` chunks were delivered (and written); `none` means the whole body is
delivered. -/
structure DownloadResponse where
  status : ℕ
  contentType : String
  chunks : List (List ℕ)
  failAfter : Option ℕ
  deriving DecidableEq, Repr

/-- A provisioning attempt: either `requests.get` itself raises before
any response arrives, or a response is obtained. -/
inductive FetchAttempt where
  | connectFail : FetchAttempt
  | got : DownloadResponse → FetchAttempt
  deriving DecidableEq, Repr

/-- State after the download-if-absent block: whether the block
completed without exception, the contents of the file at MODEL_PATH
afterwards (`none` = no file), and whether the network was touched. -/
structure ProvisionOutcome where
  ok : Bool
  file : Option (List ℕ)
  networkAccess : Bool
  deriving DecidableEq, Repr

/-- Download-if-absent block of `startup_event` (lines 55-72), as a
function of the prior file contents at MODEL_PATH and the fetch
attempt.  If the file exists the block is skipped entirely.  Otherwise
`requests.get` runs; `raise_for_status` raises on status >= 400 before
the file is opened; then chunks are streamed into the file, and a
network exception mid-transfer leaves the bytes written so far on disk
(the enclosing handler only prints and sets `model = None`; nothing
deletes the file). -/
def ensure (file : Option (List ℕ)) (attempt : FetchAttempt) : ProvisionOutcome :=
  match file with
  | some c => { ok := true, file := some c, networkAccess := false }
  | none =>
      match attempt with
      | FetchAttempt.connectFail =>
          { ok := false, file := none, networkAccess := true }
      | FetchAttempt.got r =>
          if 400 ≤ r.status then
            { ok := false, file := none, networkAccess := true }
          else
            match r.failAfter with
            | none =>
                { ok := true, file := some r.chunks.flatten, networkAccess := true }
            | some k =>
                { ok := false, file := some (r.chunks.take k).flatten,
                  networkAccess := true }

/-! ## Concrete instances used to exercise the pipeline -/

/-- A loaded model that detects nothing. -/
def trivialModel : Model := ⟨fun _ => [], fun _ => "fire"⟩

/-- A loaded model that reports one confident box on every image. -/
def oneBoxModel : Model := ⟨fun _ => [⟨0, 9/10, 1, 2, 3, 4⟩], fun _ => "fire"⟩

/-- A loaded model that reports one box whose raw confidence 0.25002 is
barely above the threshold. -/
def borderModel : Model := ⟨fun _ => [⟨0, 25002/100000, 10, 20, 30, 40⟩], fun _ => "fire"⟩

/-- A small decoded image (2 × 2), within the resize bound. -/
def smallImg : Img := ⟨2, 2, []⟩

/-- A wide decoded image (1280 × 2), above the resize bound. -/
def wideImg : Img := ⟨1280, 2, []⟩

/-- The processed form of `wideImg` (640 × 1). -/
def wideResized : Img :=
  match cv2Resize wideImg 640 1 with
  | Except.ok i => i
  | Except.error _ => ⟨0, 0, []⟩

/-- The payload produced by `oneBoxModel` on `smallImg`. -/
def oneBoxPayload : Payload :=
  { detections := [{ label := "fire", confidence := 9/10, bbox := [1, 2, 3, 4] }]
    num_detections := 1
    image_size_original := (2, 2)
    image_size_processed := (2, 2) }

/-- The payload produced by `borderModel` on `smallImg`: the raw
confidence 0.25002 passes the strict filter, yet the reported, rounded
confidence is exactly 0.25. -/
def borderPayload : Payload :=
  { detections := [{ label := "fire", confidence := 1/4, bbox := [10, 20, 30, 40] }]
    num_detections := 1
    image_size_original := (2, 2)
    image_size_processed := (2, 2) }

/-! ## Helper lemmas -/

/-- Ties-to-even rounding never goes below the floor. -/
theorem floor_le_rhe (x : ℚ) : ⌊x⌋ ≤ rhe x := by
  unfold rhe
  split_ifs <;> omega

/-- Rounding to 4 decimal places keeps a value strictly above 1/4 at or
above 1/4. -/
theorem quarter_le_pyRound (x : ℚ) (h : 1/4 < x) : 1/4 ≤ pyRound x 4 := by
  unfold pyRound
  have h1 : (2500 : ℤ) ≤ ⌊x * 10 ^ 4⌋ := by
    apply Int.le_floor.mpr
    push_cast
    nlinarith
  have h2 : (2500 : ℤ) ≤ rhe (x * 10 ^ 4) := le_trans h1 (floor_le_rhe _)
  have h3 : (2500 : ℚ) ≤ (rhe (x * 10 ^ 4) : ℚ) := by exact_mod_cast h2
  calc (1 : ℚ)/4 = 2500 / 10 ^ 4 := by norm_num
    _ ≤ (rhe (x * 10 ^ 4) : ℚ) / 10 ^ 4 := by
        have hpow : (0 : ℚ) < 10 ^ 4 := by norm_num
        exact (div_le_div_iff_of_pos_right hpow).mpr h3

/-- Every formatted detection comes from a candidate with raw
confidence strictly above 1/4, by rounding its fields. -/
theorem mem_formatDetections (m : Model) (cands : List Candidate) (d : Detection)
    (hd : d ∈ formatDetections m cands) :
    ∃ c ∈ cands, 1/4 < c.conf ∧
      d.label = m.names c.cls ∧
      d.confidence = pyRound c.conf 4 ∧
      d.bbox = [pyRound c.x1 2, pyRound c.y1 2, pyRound c.x2 2, pyRound c.y2 2] := by
  unfold formatDetections at hd
  obtain ⟨c, hc, hfc⟩ := List.mem_filterMap.mp hd
  by_cases hconf : 1/4 < c.conf
  · rw [if_pos hconf] at hfc
    obtain rfl := Option.some.inj hfc
    exact ⟨c, hc, hconf, rfl, rfl, rfl⟩
  · rw [if_neg hconf] at hfc
    cases hfc

/-- Successful responses of `detect_fire` decompose into a successful
resize step followed by formatting of the engine output. -/
theorem detect_fire_ok (m : Model) (img : Img) (p : Payload)
    (h : (detect_fire (some m) (some img)).response = Except.ok p) :
    ∃ img2, preprocess img = Except.ok img2 ∧
      p.detections = formatDetections m (yoloInfer m img2 (1/4) (45/100) 100) ∧
      p.image_size_original = (img.width, img.height) ∧
      p.image_size_processed = (img2.width, img2.height) := by
  simp only [detect_fire] at h
  cases hpre : preprocess img with
  | error e =>
      rw [hpre] at h
      simp at h
  | ok img2 =>
      rw [hpre] at h
      simp only [Except.ok.injEq] at h
      exact ⟨img2, rfl, by rw [← h], by rw [← h], by rw [← h]⟩

/-- The resize step leaves `smallImg` untouched. -/
theorem preprocess_smallImg : preprocess smallImg = Except.ok smallImg := by
  unfold preprocess
  rw [if_neg (by decide)]

/-- The resize step shrinks `wideImg` to `wideResized`. -/
theorem preprocess_wideImg : preprocess wideImg = Except.ok wideResized := by
  unfold preprocess
  rw [if_pos (by decide)]
  have h1 : pyTrunc ((wideImg.width : ℚ) *
      (640 / ((max wideImg.width wideImg.height : ℕ) : ℚ))) = 640 := by
    norm_num [pyTrunc, wideImg]
  have h2 : pyTrunc ((wideImg.height : ℚ) *
      (640 / ((max wideImg.width wideImg.height : ℕ) : ℚ))) = 1 := by
    norm_num [pyTrunc, wideImg]
  rw [h1, h2]
  rfl

/-- `detect_fire` on `oneBoxModel` and `smallImg` yields `oneBoxPayload`. -/
theorem detect_fire_oneBox :
    (detect_fire (some oneBoxModel) (some smallImg)).response =
      Except.ok oneBoxPayload := by
  simp only [detect_fire, preprocess_smallImg]
  norm_num [formatDetections, yoloInfer, oneBoxModel, oneBoxPayload, smallImg,
    pyRound, rhe, List.filter, List.filterMap]

/-- `detect_fire` on `borderModel` and `smallImg` yields `borderPayload`. -/
theorem detect_fire_border :
    (detect_fire (some borderModel) (some smallImg)).response =
      Except.ok borderPayload := by
  have hc : pyRound (12501/50000 : ℚ) 4 = 1/4 := by norm_num [pyRound, rhe]
  have h10 : pyRound (10 : ℚ) 2 = 10 := by norm_num [pyRound, rhe]
  have h20 : pyRound (20 : ℚ) 2 = 20 := by norm_num [pyRound, rhe]
  have h30 : pyRound (30 : ℚ) 2 = 30 := by norm_num [pyRound, rhe]
  have h40 : pyRound (40 : ℚ) 2 = 40 := by norm_num [pyRound, rhe]
  simp only [detect_fire, preprocess_smallImg]
  norm_num [formatDetections, yoloInfer, borderModel, borderPayload, smallImg,
    hc, h10, h20, h30, h40, List.filter, List.filterMap]

/-! ## Claims -/

/-- C4: whenever the model handle is unset, every detect request fails
with the 503 model-unavailable error and inference is never attempted,
whatever the uploaded bytes decoded to. -/
theorem C4_theorem (decoded : Option Img) :
    (detect_fire none decoded).response =
      Except.error ⟨503, "Model not loaded. Please check server logs or restart."⟩ ∧
    (detect_fire none decoded).inferenceRan = false :=
  ⟨rfl, rfl⟩

/-- C4 witness: the 503 fail-fast at a concrete request. -/
theorem C4_witness :
    (detect_fire none (some smallImg)).response =
      Except.error ⟨503, "Model not loaded. Please check server logs or restart."⟩ ∧
    (detect_fire none (some smallImg)).inferenceRan = false :=
  C4_theorem (some smallImg)

/-- C5: whenever the uploaded bytes do not decode as an image, the
request fails with the 400 decode error, inference never runs, and no
success payload (in particular no silent empty list) is produced. -/
theorem C5_theorem (m : Model) :
    (detect_fire (some m) none).response =
      Except.error ⟨400, "Invalid image file. Supported: JPG, PNG, JPEG"⟩ ∧
    (detect_fire (some m) none).inferenceRan = false :=
  ⟨rfl, rfl⟩

/-- C5 witness: the 400 decode error at a concrete request. -/
theorem C5_witness :
    (detect_fire (some trivialModel) none).response =
      Except.error ⟨400, "Invalid image file. Supported: JPG, PNG, JPEG"⟩ ∧
    (detect_fire (some trivialModel) none).inferenceRan = false :=
  C5_theorem trivialModel

/-- C8: when a file already exists at the weights path, provisioning
completes without touching the network and leaves the file exactly as
it was. -/
theorem C8_theorem (c : List ℕ) (attempt : FetchAttempt) :
    ensure (some c) attempt =
      { ok := true, file := some c, networkAccess := false } :=
  rfl

/-- C8 witness: a concrete pre-existing file is trusted untouched. -/
theorem C8_witness :
    ensure (some [7, 7]) FetchAttempt.connectFail =
      { ok := true, file := some [7, 7], networkAccess := false } :=
  C8_theorem [7, 7] FetchAttempt.connectFail

/-- C2: an image whose longer side is at most 640 passes through the
resize step unchanged, pixel data included. -/
theorem C2_theorem (img : Img) (h : max img.width img.height ≤ 640) :
    preprocess img = Except.ok img := by
  unfold preprocess
  rw [if_neg (by omega)]

/-- C2 witness: a 640 × 480 image is returned as-is. -/
theorem C2_witness :
    max (⟨640, 480, [1, 2, 3]⟩ : Img).width (⟨640, 480, [1, 2, 3]⟩ : Img).height ≤ 640 ∧
    preprocess ⟨640, 480, [1, 2, 3]⟩ = Except.ok ⟨640, 480, [1, 2, 3]⟩ :=
  ⟨by decide, C2_theorem ⟨640, 480, [1, 2, 3]⟩ (by decide)⟩

/-- C10: a decodable 1 × 1000 image drives `int(width * scale)` to 0,
so the resize call fails and the request is answered with the generic
500 error instead of detections. -/
theorem C10_theorem :
    pyTrunc (((1 : ℕ) : ℚ) * (640 / ((max 1 1000 : ℕ) : ℚ))) = 0 ∧
    (detect_fire (some trivialModel) (some ⟨1, 1000, []⟩)).response =
      Except.error ⟨500, "Detection failed: OpenCV resize: invalid dsize"⟩ ∧
    (detect_fire (some trivialModel) (some ⟨1, 1000, []⟩)).inferenceRan = false := by
  have hpre : preprocess ⟨1, 1000, []⟩ =
      Except.error "OpenCV resize: invalid dsize" := by
    unfold preprocess
    rw [if_pos (by decide)]
    have h1 : pyTrunc (((Img.mk 1 1000 []).width : ℚ) *
        (640 / ((max (Img.mk 1 1000 []).width (Img.mk 1 1000 []).height : ℕ) : ℚ))) = 0 := by
      norm_num [pyTrunc]
    have h2 : pyTrunc (((Img.mk 1 1000 []).height : ℚ) *
        (640 / ((max (Img.mk 1 1000 []).width (Img.mk 1 1000 []).height : ℕ) : ℚ))) = 640 := by
      norm_num [pyTrunc]
    rw [h1, h2]
    rfl
  refine ⟨by norm_num [pyTrunc], ?_, ?_⟩
  · simp only [detect_fire, hpre]
    rfl
  · simp only [detect_fire, hpre]

/-- C1 counterexample: a raw confidence of 0.25002 survives the strict
filter but is reported as exactly 0.25 after rounding, so the reported
confidence is not strictly greater than 0.25. -/
theorem C1_counterexample :
    (detect_fire (some borderModel) (some smallImg)).response =
      Except.ok borderPayload ∧
    borderPayload.detections.map Detection.confidence = [1/4] ∧
    ¬ ((1 : ℚ)/4 < 1/4) :=
  ⟨detect_fire_border, rfl, by norm_num⟩

/-- C1 (amended): every reported detection has confidence at least 0.25
after rounding (the raw confidence is strictly above 0.25, but rounding
may land exactly on 0.25), and the list length is at most 100. -/
theorem C1_theorem (m : Model) (img : Img) (p : Payload)
    (h : (detect_fire (some m) (some img)).response = Except.ok p) :
    (∀ d ∈ p.detections, (1 : ℚ)/4 ≤ d.confidence) ∧ p.detections.length ≤ 100 := by
  obtain ⟨img2, hpre, hdets, _, _⟩ := detect_fire_ok m img p h
  constructor
  · intro d hd
    rw [hdets] at hd
    obtain ⟨c, _, hconf, _, hc4, _⟩ := mem_formatDetections _ _ _ hd
    rw [hc4]
    exact quarter_le_pyRound _ hconf
  · rw [hdets]
    calc (formatDetections m (yoloInfer m img2 (1/4) (45/100) 100)).length
        ≤ (yoloInfer m img2 (1/4) (45/100) 100).length :=
          List.length_filterMap_le _ _
      _ ≤ 100 := by
          unfold yoloInfer
          exact List.length_take_le _ _

/-- C1 witness: the bounds at a concrete successful request. -/
theorem C1_witness :
    (∀ d ∈ oneBoxPayload.detections, (1 : ℚ)/4 ≤ d.confidence) ∧
    oneBoxPayload.detections.length ≤ 100 :=
  C1_theorem oneBoxModel smallImg oneBoxPayload detect_fire_oneBox

/-- C9: every reported detection is a raw engine candidate with its
confidence rounded to 4 decimal places, its box corners rounded to 2
decimal places, and its label taken from the class-name table; the
rounding function is a deterministic ties-to-even rule. -/
theorem C9_theorem (m : Model) (img : Img) (p : Payload)
    (h : (detect_fire (some m) (some img)).response = Except.ok p) :
    ∀ d ∈ p.detections, ∃ img2 c,
      preprocess img = Except.ok img2 ∧
      c ∈ yoloInfer m img2 (1/4) (45/100) 100 ∧
      1/4 < c.conf ∧
      d.label = m.names c.cls ∧
      d.confidence = pyRound c.conf 4 ∧
      d.bbox = [pyRound c.x1 2, pyRound c.y1 2, pyRound c.x2 2, pyRound c.y2 2] := by
  obtain ⟨img2, hpre, hdets, _, _⟩ := detect_fire_ok m img p h
  intro d hd
  rw [hdets] at hd
  obtain ⟨c, hc, hconf, h1, h2, h3⟩ := mem_formatDetections _ _ _ hd
  exact ⟨img2, c, hpre, hc, hconf, h1, h2, h3⟩

/-- C9 witness: the rounding relation at the concrete detection of a
concrete successful request. -/
theorem C9_witness :
    ∃ img2 c,
      preprocess smallImg = Except.ok img2 ∧
      c ∈ yoloInfer oneBoxModel img2 (1/4) (45/100) 100 ∧
      1/4 < c.conf ∧
      (Detection.mk "fire" (9/10) [1, 2, 3, 4]).label = oneBoxModel.names c.cls ∧
      (Detection.mk "fire" (9/10) [1, 2, 3, 4]).confidence = pyRound c.conf 4 ∧
      (Detection.mk "fire" (9/10) [1, 2, 3, 4]).bbox =
        [pyRound c.x1 2, pyRound c.y1 2, pyRound c.x2 2, pyRound c.y2 2] :=
  C9_theorem oneBoxModel smallImg oneBoxPayload detect_fire_oneBox
    (Detection.mk "fire" (9/10) [1, 2, 3, 4]) (List.Mem.head _)

/-- C6 counterexample: a transfer that dies after the first chunk
leaves the partially written file on disk while provisioning fails —
nothing deletes it. -/
theorem C6_counterexample :
    (ensure none (FetchAttempt.got ⟨200, "application/octet-stream",
        [[1, 2], [3]], some 1⟩)).ok = false ∧
    (ensure none (FetchAttempt.got ⟨200, "application/octet-stream",
        [[1, 2], [3]], some 1⟩)).file = some [1, 2] :=
  ⟨rfl, rfl⟩

/-- C6 (amended): when the download dies mid-transfer, provisioning
fails and the partially written bytes remain at the weights path; no
cleanup is performed before the failure is reported. -/
theorem C6_theorem (r : DownloadResponse) (k : ℕ)
    (hs : r.status < 400) (hf : r.failAfter = some k) :
    (ensure none (FetchAttempt.got r)).ok = false ∧
    (ensure none (FetchAttempt.got r)).file = some (r.chunks.take k).flatten := by
  simp only [ensure]
  rw [if_neg (by omega), hf]
  exact ⟨rfl, rfl⟩

/-- C6 witness: the partial file left behind at a concrete failed
transfer. -/
theorem C6_witness :
    (ensure none (FetchAttempt.got ⟨204, "application/octet-stream",
        [[9, 9], [8]], some 1⟩)).ok = false ∧
    (ensure none (FetchAttempt.got ⟨204, "application/octet-stream",
        [[9, 9], [8]], some 1⟩)).file =
      some (([[9, 9], [8]] : List (List ℕ)).take 1).flatten :=
  C6_theorem ⟨204, "application/octet-stream", [[9, 9], [8]], some 1⟩ 1
    (by norm_num) rfl

/-- C7 counterexample: a 200 response whose content type is HTML is
accepted and written as the weights file — the content type is never
inspected. -/
theorem C7_counterexample :
    (ensure none (FetchAttempt.got ⟨200, "text/html", [[60, 104]], none⟩)).ok = true ∧
    (ensure none (FetchAttempt.got ⟨200, "text/html", [[60, 104]], none⟩)).file =
      some [60, 104] :=
  ⟨rfl, rfl⟩

/-- C7 (amended): provisioning fails exactly when the connection
attempt raises, the HTTP status is an error status, or the transfer
dies mid-stream; the declared content type plays no role. -/
theorem C7_theorem (attempt : FetchAttempt) :
    (ensure none attempt).ok = false ↔
      attempt = FetchAttempt.connectFail ∨
      ∃ r, attempt = FetchAttempt.got r ∧
        (400 ≤ r.status ∨ r.failAfter ≠ none) := by
  cases attempt with
  | connectFail => simp [ensure]
  | got r =>
      by_cases hs : 400 ≤ r.status
      · simp [ensure, hs]
      · cases hf : r.failAfter with
        | none => simp [ensure, hs, hf]
        | some k => simp [ensure, hs, hf]

/-- C7 witness: the characterization at a concrete failing attempt. -/
theorem C7_witness :
    (ensure none FetchAttempt.connectFail).ok = false ↔
      FetchAttempt.connectFail = FetchAttempt.connectFail ∨
      ∃ r, FetchAttempt.connectFail = FetchAttempt.got r ∧
        (400 ≤ r.status ∨ r.failAfter ≠ none) :=
  C7_theorem FetchAttempt.connectFail

/-- C3: when a side exceeds 640, both processed dimensions are the
original ones scaled by the single factor 640 / max(width, height) and
truncated; the processed longer side is exactly 640 and the aspect
ratio is preserved up to the truncation error, which is below one part
in max(width, height). -/
theorem C3_theorem (img img2 : Img)
    (hw : 0 < img.width) (hh : 0 < img.height)
    (hbig : 640 < max img.width img.height)
    (hp : preprocess img = Except.ok img2) :
    (img2.width : ℤ) =
      pyTrunc ((img.width : ℚ) * (640 / ((max img.width img.height : ℕ) : ℚ))) ∧
    (img2.height : ℤ) =
      pyTrunc ((img.height : ℚ) * (640 / ((max img.width img.height : ℕ) : ℚ))) ∧
    max img2.width img2.height = 640 ∧
    |(img2.width : ℚ) * img.height - (img2.height : ℚ) * img.width| <
      ((max img.width img.height : ℕ) : ℚ) := by
  have hcond : 640 < img.width ∨ 640 < img.height := by omega
  unfold preprocess at hp
  rw [if_pos hcond] at hp
  unfold cv2Resize at hp
  set M : ℕ := max img.width img.height with hM
  set q : ℚ := 640 / (M : ℚ) with hq
  set nw : ℤ := pyTrunc ((img.width : ℚ) * q) with hnw
  set nh : ℤ := pyTrunc ((img.height : ℚ) * q) with hnh
  by_cases hpos : 0 < nw ∧ 0 < nh
  · rw [if_pos hpos] at hp
    obtain ⟨hpw, hph⟩ := hpos
    injection hp with hp2
    subst hp2
    dsimp only
    have hM0 : 0 < M := by omega
    have hMq : (0 : ℚ) < (M : ℚ) := by exact_mod_cast hM0
    have hq0 : (0 : ℚ) ≤ q := by rw [hq]; positivity
    have haw : (0 : ℚ) ≤ (img.width : ℚ) * q := by positivity
    have hah : (0 : ℚ) ≤ (img.height : ℚ) * q := by positivity
    have hfw : nw = ⌊(img.width : ℚ) * q⌋ := by
      rw [hnw]; unfold pyTrunc; rw [if_pos haw]
    have hfh : nh = ⌊(img.height : ℚ) * q⌋ := by
      rw [hnh]; unfold pyTrunc; rw [if_pos hah]
    refine ⟨Int.toNat_of_nonneg hpw.le, Int.toNat_of_nonneg hph.le, ?_, ?_⟩
    · rcases le_or_lt img.height img.width with hcase | hcase
      · have hMw : M = img.width := by rw [hM]; exact max_eq_left hcase
        have haq : (img.width : ℚ) * q = 640 := by
          have hwQ : ((img.width : ℚ)) ≠ 0 := by
            have : 0 < img.width := hw
            positivity
          rw [hq, hMw]
          field_simp
        have hnw640 : nw = 640 := by
          rw [hfw, haq]
          norm_num
        have hble : (img.height : ℚ) * q ≤ 640 := by
          rw [← haq]
          exact mul_le_mul_of_nonneg_right (by exact_mod_cast hcase) hq0
        have hnh640 : nh ≤ 640 := by
          rw [hfh]
          calc ⌊(img.height : ℚ) * q⌋ ≤ ⌊(640 : ℚ)⌋ := Int.floor_le_floor hble
            _ = 640 := by norm_num
        omega
      · have hMh : M = img.height := by rw [hM]; exact max_eq_right hcase.le
        have haq : (img.height : ℚ) * q = 640 := by
          have hhQ : ((img.height : ℚ)) ≠ 0 := by
            have : 0 < img.height := hh
            positivity
          rw [hq, hMh]
          field_simp
        have hnh640 : nh = 640 := by
          rw [hfh, haq]
          norm_num
        have hble : (img.width : ℚ) * q ≤ 640 := by
          rw [← haq]
          exact mul_le_mul_of_nonneg_right (by exact_mod_cast hcase.le) hq0
        have hnw640 : nw ≤ 640 := by
          rw [hfw]
          calc ⌊(img.width : ℚ) * q⌋ ≤ ⌊(640 : ℚ)⌋ := Int.floor_le_floor hble
            _ = 640 := by norm_num
        omega
    · have hcw : ((nw.toNat : ℕ) : ℚ) = ((nw : ℤ) : ℚ) := by
        exact_mod_cast congrArg (Int.cast : ℤ → ℚ) (Int.toNat_of_nonneg hpw.le)
      have hch : ((nh.toNat : ℕ) : ℚ) = ((nh : ℤ) : ℚ) := by
        exact_mod_cast congrArg (Int.cast : ℤ → ℚ) (Int.toNat_of_nonneg hph.le)
      rw [hcw, hch, hfw, hfh, abs_lt]
      have hwQ : (0 : ℚ) < (img.width : ℚ) := by exact_mod_cast hw
      have hhQ : (0 : ℚ) < (img.height : ℚ) := by exact_mod_cast hh
      have hwM : (img.width : ℚ) ≤ (M : ℚ) := by
        exact_mod_cast Nat.cast_le.mpr (hM ▸ le_max_left img.width img.height)
      have hhM : (img.height : ℚ) ≤ (M : ℚ) := by
        exact_mod_cast Nat.cast_le.mpr (hM ▸ le_max_right img.width img.height)
      have p1 : (⌊(img.width : ℚ) * q⌋ : ℚ) * img.height ≤ (img.width : ℚ) * q * img.height :=
        mul_le_mul_of_nonneg_right (Int.floor_le _) hhQ.le
      have p2 : ((img.height : ℚ) * q - 1) * img.width < (⌊(img.height : ℚ) * q⌋ : ℚ) * img.width :=
        mul_lt_mul_of_pos_right (Int.sub_one_lt_floor _) hwQ
      have p3 : (⌊(img.height : ℚ) * q⌋ : ℚ) * img.width ≤ (img.height : ℚ) * q * img.width :=
        mul_le_mul_of_nonneg_right (Int.floor_le _) hwQ.le
      have p4 : ((img.width : ℚ) * q - 1) * img.height < (⌊(img.width : ℚ) * q⌋ : ℚ) * img.height :=
        mul_lt_mul_of_pos_right (Int.sub_one_lt_floor _) hhQ
      have key : (img.width : ℚ) * q * img.height = (img.height : ℚ) * q * img.width := by
        ring
      constructor
      · linarith [p3, p4, key, hhM]
      · linarith [p1, p2, key, hwM]
  · rw [if_neg hpos] at hp
    simp at hp

/-- C3 witness: a 1280 × 2 image is resized to 640 × 1. -/
theorem C3_witness :
    (wideResized.width : ℤ) =
      pyTrunc ((wideImg.width : ℚ) * (640 / ((max wideImg.width wideImg.height : ℕ) : ℚ))) ∧
    (wideResized.height : ℤ) =
      pyTrunc ((wideImg.height : ℚ) * (640 / ((max wideImg.width wideImg.height : ℕ) : ℚ))) ∧
    max wideResized.width wideResized.height = 640 ∧
    |(wideResized.width : ℚ) * wideImg.height - (wideResized.height : ℚ) * wideImg.width| <
      ((max wideImg.width wideImg.height : ℕ) : ℚ) :=
  C3_theorem wideImg wideResized (by decide) (by decide) (by decide) preprocess_wideImg

end FireDetection
